import Mathlib

/-!
Verification of the SiteWatch endpoint health / TLS-certificate monitor.

Shallow embedding of the Go sources:
  * `app/structs/types.go`    — data model (`EndpointState`, `StoredEndpoint`, …)
  * `app/worker/ssl_checker.go` — `CheckSSLCertificate`
  * worker monitor file        — `handleCheckSuccess`, `handleCheckFailure`,
                                 `checkSSLOnly`, `UpdateEndpointSettings`,
                                 `RemoveEndpoint`
  * `app/models/database.go`  — store operations, `CleanupOldData`
  * `app/utils/helpers.go`    — `GenerateIDWithURL`

Conventions: Go `time.Time` and `time.Duration` are embedded as `Int`
nanosecond counts (the Go zero time is `0`); Go `int` is embedded as `Int`
(no value in this code comes near the 64-bit bound); Go strings iterated
by `range` (runes) are embedded as `List Char`; network and disk I/O is
passed in as explicit arguments (a dial oracle, an in-memory association
list for a BoltDB bucket).
-/

namespace SiteWatch

/-- Nanoseconds in one hour (`time.Hour`). -/
def nsPerHour : Int := 3600000000000

/-- Nanoseconds in one day (`24 * time.Hour`). -/
def nsPerDay : Int := 86400000000000

/-- Nanoseconds in one second (`time.Second`). -/
def nsPerSecond : Int := 1000000000

/-- `HealthStatus` constants from `app/structs/types.go`. -/
inductive HealthStatus where
  | healthy
  | unhealthy
  | unknown
deriving DecidableEq, Repr

/-- `Endpoint` from `app/structs/types.go` (the probe-parameter snapshot
embedded into the runtime state).  `timeout` is the unwrapped duration. -/
structure Endpoint where
  name : String
  url : String
  method : String
  timeout : Int
  expectedStatus : Int
  headers : List (String × String)
  failureThreshold : Int
  successThreshold : Int
deriving DecidableEq, Repr

/-- `EndpointState` from `app/structs/types.go`: runtime state of one
monitored endpoint. -/
structure EndpointState where
  endpoint : Endpoint
  status : HealthStatus
  lastCheck : Int
  lastStatusChange : Int
  consecutiveFailures : Int
  consecutiveSuccesses : Int
  responseTime : Int
  lastError : String
  enabled : Bool
  alertsSuppressed : Bool
  monitorHealth : Bool
  id : String
  checkInterval : Int
  nextCheck : Int
  sslCertExpiry : Int
  sslExpiringSoon : Bool
  daysToExpiry : Int
  lastSSLCheck : Int
deriving DecidableEq, Repr

/-- `StoredEndpoint` from `app/structs/types.go`: the durable record. -/
structure StoredEndpoint where
  id : String
  name : String
  url : String
  method : String
  timeout : Int
  checkInterval : Int
  expectedStatus : Int
  headers : List (String × String)
  failureThreshold : Int
  successThreshold : Int
  enabled : Bool
  alertsSuppressed : Bool
  monitorHealth : Bool
  createdAt : Int
  updatedAt : Int
deriving DecidableEq, Repr

/-- `SSLCertInfo` from `app/worker/ssl_checker.go`. -/
structure SSLCertInfo where
  expiry : Int
  daysToExpiry : Int
  expiringSoon : Bool
  isHTTPS : Bool
  error : String
deriving DecidableEq, Repr

/-- The slice of an X.509 certificate `CheckSSLCertificate` reads: only
`NotAfter` is consulted. -/
structure Cert where
  notAfter : Int
deriving DecidableEq, Repr

/-- Result of `url.Parse` as consumed by `CheckSSLCertificate`: scheme,
hostname and port (port `""` when absent).  `none` embeds a parse error. -/
structure ParsedURL where
  scheme : String
  hostname : String
  port : String
deriving DecidableEq, Repr

/-- Outcome of `tls.Dial`: either an error or the peer certificate chain. -/
inductive DialResult where
  | err (msg : String)
  | ok (peerCertificates : List Cert)
deriving DecidableEq, Repr

/-- `CheckSSLCertificate` from `app/worker/ssl_checker.go`.  The URL parse
result and the TLS dial (keyed by the address string the code builds) are
explicit inputs; `now` is `time.Now()` at the days-to-expiry computation.
Go computes `int(duration.Hours() / 24)`, i.e. truncation toward zero of
the day count; this is `Int.tdiv` on the nanosecond values (exact at every
instant where `float64` represents the quotient faithfully, in particular
at all inputs used below). -/
def CheckSSLCertificate (parsed : Option ParsedURL) (dial : String → DialResult)
    (now : Int) (warningDays : Int) : SSLCertInfo :=
  match parsed with
  | none =>
      { expiry := 0, daysToExpiry := 0, expiringSoon := false,
        isHTTPS := false, error := "Invalid URL" }
  | some u =>
      if u.scheme ≠ "https" then
        { expiry := 0, daysToExpiry := 0, expiringSoon := false,
          isHTTPS := false, error := "" }
      else if u.hostname = "" then
        { expiry := 0, daysToExpiry := 0, expiringSoon := false,
          isHTTPS := true, error := "Invalid hostname" }
      else
        let address := if u.port ≠ "" then u.hostname ++ ":" ++ u.port
                       else u.hostname ++ ":443"
        match dial address with
        | .err msg =>
            { expiry := 0, daysToExpiry := 0, expiringSoon := false,
              isHTTPS := true, error := "Failed to connect: " ++ msg }
        | .ok [] =>
            { expiry := 0, daysToExpiry := 0, expiringSoon := false,
              isHTTPS := true, error := "No certificates found" }
        | .ok (cert :: _) =>
            let days := Int.tdiv (cert.notAfter - now) nsPerDay
            { expiry := cert.notAfter, daysToExpiry := days,
              expiringSoon := decide (days ≤ warningDays) && decide (days ≥ 0),
              isHTTPS := true, error := "" }

/-- The TLS-field update step shared by `checkSSLOnly` and
`handleCheckSuccess` (the body of `if sslInfo.IsHTTPS { … }`): copy the
probe's expiry fields into the state and stamp `LastSSLCheck`; skip
everything when the probe said the URL is not https. -/
def applySSLInfo (now : Int) (info : SSLCertInfo) (s : EndpointState) : EndpointState :=
  if info.isHTTPS then
    { s with sslCertExpiry := info.expiry, daysToExpiry := info.daysToExpiry,
             sslExpiringSoon := info.expiringSoon, lastSSLCheck := now }
  else s

/-- Alert kinds dispatched by the handlers (`SendRecoveryAlert`,
`SendFailureAlert`). -/
inductive Alert where
  | recovery
  | failure
deriving DecidableEq, Repr

/-- `handleCheckSuccess` from the worker monitor file.  `probe t url`
stands for `CheckSSLCertificate(url, config.SSLExpiryWarningDays)` executed
at instant `t`; `now` is `time.Now()` during the handler.  Returns the
updated state and the alert dispatched (if any; `none` also when alerts
are suppressed). -/
def handleCheckSuccess (probe : Int → String → SSLCertInfo) (now : Int)
    (responseTime : Int) (s : EndpointState) : EndpointState × Option Alert :=
  let s1 : EndpointState :=
    { s with lastCheck := now, nextCheck := now + s.checkInterval,
             responseTime := responseTime, consecutiveFailures := 0,
             consecutiveSuccesses := s.consecutiveSuccesses + 1,
             lastError := "" }
  let previousStatus := s1.status
  let s2 : EndpointState := if s1.consecutiveSuccesses ≥ s1.endpoint.successThreshold
            then { s1 with status := .healthy } else s1
  let shouldCheckSSL := s2.lastSSLCheck = 0 ∨ now - s2.lastSSLCheck ≥ nsPerDay
  let s3 : EndpointState :=
    if shouldCheckSSL then applySSLInfo now (probe now s2.endpoint.url) s2
    else s2
  if previousStatus = .unhealthy ∧ s3.status = .healthy then
    let s4 : EndpointState := { s3 with lastStatusChange := now }
    (s4, if s4.alertsSuppressed then none else some .recovery)
  else
    (s3, none)

/-- `handleCheckFailure` from the worker monitor file. -/
def handleCheckFailure (now : Int) (errorMsg : String) (responseTime : Int)
    (s : EndpointState) : EndpointState × Option Alert :=
  let s1 : EndpointState :=
    { s with lastCheck := now, nextCheck := now + s.checkInterval,
             responseTime := responseTime, consecutiveSuccesses := 0,
             consecutiveFailures := s.consecutiveFailures + 1,
             lastError := errorMsg }
  let previousStatus := s1.status
  let s2 : EndpointState := if s1.consecutiveFailures ≥ s1.endpoint.failureThreshold
            then { s1 with status := .unhealthy } else s1
  if previousStatus ≠ .unhealthy ∧ s2.status = .unhealthy then
    let s3 : EndpointState := { s2 with lastStatusChange := now }
    (s3, if s3.alertsSuppressed then none else some .failure)
  else
    (s2, none)

/-- `checkSSLOnly` from the worker monitor file (the TLS-only path for
`monitor_health == false`). -/
def checkSSLOnly (probe : Int → String → SSLCertInfo) (now : Int)
    (s : EndpointState) : EndpointState :=
  let shouldCheckSSL := s.lastSSLCheck = 0 ∨ now - s.lastSSLCheck ≥ nsPerDay
  let s1 : EndpointState :=
    if shouldCheckSSL then applySSLInfo now (probe now s.endpoint.url) s
    else s
  { s1 with lastCheck := now, nextCheck := now + nsPerDay }

/-- One observed probe outcome fed to the hysteresis handlers, carrying
the wall-clock instant and measured response time of its check. -/
inductive Outcome where
  | ok (now : Int) (responseTime : Int)
  | fail (now : Int) (errorMsg : String) (responseTime : Int)
deriving Repr

/-- Dispatch one outcome to the matching handler (step 3 of the per-probe
flow in `checkEndpoint`). -/
def stepOutcome (probe : Int → String → SSLCertInfo) (s : EndpointState) :
    Outcome → EndpointState × Option Alert
  | .ok now rt => handleCheckSuccess probe now rt s
  | .fail now msg rt => handleCheckFailure now msg rt s

/-- Run a sequence of outcomes through the handlers, collecting the state
and dispatched alert after each step. -/
def runOutcomes (probe : Int → String → SSLCertInfo) (s : EndpointState) :
    List Outcome → List (EndpointState × Option Alert)
  | [] => []
  | o :: rest =>
      let r := stepOutcome probe s o
      r :: runOutcomes probe r.1 rest

/-- A probe oracle for a non-https endpoint: `CheckSSLCertificate` on a
scheme other than `"https"` returns `isHTTPS := false` and empty error. -/
def httpProbe : Int → String → SSLCertInfo := fun _ _ =>
  { expiry := 0, daysToExpiry := 0, expiringSoon := false,
    isHTTPS := false, error := "" }

/-- The test endpoint of the hysteresis scenario: F = 3, S = 2. -/
def testEndpoint : Endpoint :=
  { name := "e", url := "http://e.example.com", method := "GET",
    timeout := 10 * nsPerSecond, expectedStatus := 200, headers := [],
    failureThreshold := 3, successThreshold := 2 }

/-- A fresh monitor state as built by `loadEndpointsFromDB` / `AddEndpoint`:
status unknown, zero counters (Go zero values). -/
def initialTestState : EndpointState :=
  { endpoint := testEndpoint, status := .unknown, lastCheck := 0,
    lastStatusChange := 0, consecutiveFailures := 0,
    consecutiveSuccesses := 0, responseTime := 0, lastError := "",
    enabled := true, alertsSuppressed := false, monitorHealth := true,
    id := "e", checkInterval := 30 * nsPerSecond, nextCheck := 0,
    sslCertExpiry := 0, sslExpiringSoon := false, daysToExpiry := 0,
    lastSSLCheck := 0 }

/-- The outcome sequence of scenario 1: [ok, ok, fail, fail, fail, ok, ok]. -/
def scenarioOutcomes : List Outcome :=
  [ .ok 1 5, .ok 2 5, .fail 3 "request failed" 5, .fail 4 "request failed" 5,
    .fail 5 "request failed" 5, .ok 6 5, .ok 7 5 ]

/-- Final state after running a sequence of outcomes through the handlers. -/
def runFinal (probe : Int → String → SSLCertInfo) (s : EndpointState)
    (outs : List Outcome) : EndpointState :=
  outs.foldl (fun st o => (stepOutcome probe st o).1) s

theorem handleCheckSuccess_counters (probe : Int → String → SSLCertInfo)
    (now rt : Int) (s : EndpointState) :
    (handleCheckSuccess probe now rt s).1.consecutiveFailures = 0 ∧
    (handleCheckSuccess probe now rt s).1.consecutiveSuccesses =
      s.consecutiveSuccesses + 1 := by
  simp only [handleCheckSuccess, applySSLInfo]
  split_ifs <;> simp

theorem handleCheckFailure_counters (now : Int) (msg : String) (rt : Int)
    (s : EndpointState) :
    (handleCheckFailure now msg rt s).1.consecutiveSuccesses = 0 ∧
    (handleCheckFailure now msg rt s).1.consecutiveFailures =
      s.consecutiveFailures + 1 := by
  simp only [handleCheckFailure]
  split_ifs <;> simp

theorem handleCheckSuccess_status (probe : Int → String → SSLCertInfo)
    (now rt : Int) (s : EndpointState) :
    (handleCheckSuccess probe now rt s).1.status =
      (if s.consecutiveSuccesses + 1 ≥ s.endpoint.successThreshold
       then HealthStatus.healthy else s.status) := by
  simp only [handleCheckSuccess, applySSLInfo]
  split_ifs <;> simp_all

theorem handleCheckFailure_status (now : Int) (msg : String) (rt : Int)
    (s : EndpointState) :
    (handleCheckFailure now msg rt s).1.status =
      (if s.consecutiveFailures + 1 ≥ s.endpoint.failureThreshold
       then HealthStatus.unhealthy else s.status) := by
  simp only [handleCheckFailure]
  split_ifs <;> simp_all

theorem handleCheckSuccess_endpoint (probe : Int → String → SSLCertInfo)
    (now rt : Int) (s : EndpointState) :
    (handleCheckSuccess probe now rt s).1.endpoint = s.endpoint := by
  simp only [handleCheckSuccess, applySSLInfo]
  split_ifs <;> simp

theorem handleCheckFailure_endpoint (now : Int) (msg : String) (rt : Int)
    (s : EndpointState) :
    (handleCheckFailure now msg rt s).1.endpoint = s.endpoint := by
  simp only [handleCheckFailure]
  split_ifs <;> simp

theorem stepOutcome_counters (probe : Int → String → SSLCertInfo)
    (s : EndpointState) (o : Outcome) :
    (stepOutcome probe s o).1.consecutiveFailures = 0 ∨
    (stepOutcome probe s o).1.consecutiveSuccesses = 0 := by
  cases o with
  | ok now rt => exact Or.inl (handleCheckSuccess_counters probe now rt s).1
  | fail now msg rt => exact Or.inr (handleCheckFailure_counters now msg rt s).1

theorem runOutcomes_counters (probe : Int → String → SSLCertInfo)
    (s : EndpointState) (outs : List Outcome) :
    ∀ r ∈ runOutcomes probe s outs,
      r.1.consecutiveFailures = 0 ∨ r.1.consecutiveSuccesses = 0 := by
  induction outs generalizing s with
  | nil => intro r h; simp [runOutcomes] at h
  | cons o rest ih =>
      intro r h
      simp only [runOutcomes, List.mem_cons] at h
      rcases h with h | h
      · subst h; exact stepOutcome_counters probe s o
      · exact ih _ r h

theorem stepOutcome_status (probe : Int → String → SSLCertInfo)
    (s : EndpointState) (o : Outcome) :
    (stepOutcome probe s o).1.status = s.status ∨
    (stepOutcome probe s o).1.status = HealthStatus.healthy ∨
    (stepOutcome probe s o).1.status = HealthStatus.unhealthy := by
  cases o with
  | ok now rt =>
      simp only [stepOutcome]
      have h := handleCheckSuccess_status probe now rt s
      by_cases hc : s.consecutiveSuccesses + 1 ≥ s.endpoint.successThreshold
      · right; left; rw [h, if_pos hc]
      · left; rw [h, if_neg hc]
  | fail now msg rt =>
      simp only [stepOutcome]
      have h := handleCheckFailure_status now msg rt s
      by_cases hc : s.consecutiveFailures + 1 ≥ s.endpoint.failureThreshold
      · right; right; rw [h, if_pos hc]
      · left; rw [h, if_neg hc]

theorem runOutcomes_no_unknown (probe : Int → String → SSLCertInfo)
    (s : EndpointState) (outs : List Outcome)
    (hs : s.status ≠ HealthStatus.unknown) :
    ∀ r ∈ runOutcomes probe s outs, r.1.status ≠ HealthStatus.unknown := by
  induction outs generalizing s with
  | nil => intro r h; simp [runOutcomes] at h
  | cons o rest ih =>
      intro r h
      have hstep : (stepOutcome probe s o).1.status ≠ HealthStatus.unknown := by
        rcases stepOutcome_status probe s o with h1 | h1 | h1 <;> rw [h1] <;>
          simp_all
      simp only [runOutcomes, List.mem_cons] at h
      rcases h with h | h
      · subst h; exact hstep
      · exact ih _ hstep r h

/-- C4: with F = 3, S = 2 and initial status unknown, the outcome sequence
[ok, ok, fail, fail, fail, ok, ok] produces the status sequence
[unknown, healthy, healthy, healthy, unhealthy, unhealthy, healthy], with a
failure alert dispatched exactly at step 5 and a recovery alert exactly at
step 7. -/
theorem C4_hysteresis_scenario :
    (runOutcomes httpProbe initialTestState scenarioOutcomes).map
      (fun r => (r.1.status, r.2)) =
    [ (.unknown, none), (.healthy, none), (.healthy, none), (.healthy, none),
      (.unhealthy, some .failure), (.unhealthy, none),
      (.healthy, some .recovery) ] := by decide

/-- C6: the success handler always leaves `consecutive_failures = 0`, the
failure handler always leaves `consecutive_successes = 0`, and hence after
any outcome of any sequence applied to any state the two counters are never
both positive. -/
theorem C6_counters_never_both_positive :
    (∀ (probe : Int → String → SSLCertInfo) (now rt : Int) (s : EndpointState),
       (handleCheckSuccess probe now rt s).1.consecutiveFailures = 0) ∧
    (∀ (now : Int) (msg : String) (rt : Int) (s : EndpointState),
       (handleCheckFailure now msg rt s).1.consecutiveSuccesses = 0) ∧
    (∀ (probe : Int → String → SSLCertInfo) (s : EndpointState)
       (outs : List Outcome), ∀ r ∈ runOutcomes probe s outs,
       ¬ (0 < r.1.consecutiveFailures ∧ 0 < r.1.consecutiveSuccesses)) := by
  refine ⟨fun probe now rt s => (handleCheckSuccess_counters probe now rt s).1,
          fun now msg rt s => (handleCheckFailure_counters now msg rt s).1,
          fun probe s outs r hr hboth => ?_⟩
  rcases runOutcomes_counters probe s outs r hr with h | h <;> omega

/-- C6 witness: the second step of the concrete hysteresis scenario is a
member of the run and its counters are not both positive. -/
theorem C6_counters_witness :
    (handleCheckSuccess httpProbe 1 5 initialTestState).1.consecutiveFailures
      = 0 ∧
    (handleCheckFailure 1 "request failed" 5
        initialTestState).1.consecutiveSuccesses = 0 ∧
    ¬ (0 < (handleCheckSuccess httpProbe 1 5
              initialTestState).1.consecutiveFailures ∧
       0 < (handleCheckSuccess httpProbe 1 5
              initialTestState).1.consecutiveSuccesses) :=
  ⟨C6_counters_never_both_positive.1 httpProbe 1 5 initialTestState,
   C6_counters_never_both_positive.2.1 1 "request failed" 5 initialTestState,
   C6_counters_never_both_positive.2.2 httpProbe initialTestState
     [Outcome.ok 1 5] (handleCheckSuccess httpProbe 1 5 initialTestState)
     (by simp [runOutcomes, stepOutcome])⟩

/-- C10: the success handler only ever assigns `healthy`, the failure
handler only ever assigns `unhealthy`, and once a state's status is not
`unknown` it never becomes `unknown` again under any outcome sequence. -/
theorem C10_never_back_to_unknown :
    (∀ (probe : Int → String → SSLCertInfo) (now rt : Int) (s : EndpointState),
       (handleCheckSuccess probe now rt s).1.status = HealthStatus.healthy ∨
       (handleCheckSuccess probe now rt s).1.status = s.status) ∧
    (∀ (now : Int) (msg : String) (rt : Int) (s : EndpointState),
       (handleCheckFailure now msg rt s).1.status = HealthStatus.unhealthy ∨
       (handleCheckFailure now msg rt s).1.status = s.status) ∧
    (∀ (probe : Int → String → SSLCertInfo) (s : EndpointState)
       (outs : List Outcome), s.status ≠ HealthStatus.unknown →
       ∀ r ∈ runOutcomes probe s outs, r.1.status ≠ HealthStatus.unknown) := by
  refine ⟨fun probe now rt s => ?_, fun now msg rt s => ?_,
          fun probe s outs hs => runOutcomes_no_unknown probe s outs hs⟩
  · have h := handleCheckSuccess_status probe now rt s
    by_cases hc : s.consecutiveSuccesses + 1 ≥ s.endpoint.successThreshold
    · left; rw [h, if_pos hc]
    · right; rw [h, if_neg hc]
  · have h := handleCheckFailure_status now msg rt s
    by_cases hc : s.consecutiveFailures + 1 ≥ s.endpoint.failureThreshold
    · left; rw [h, if_pos hc]
    · right; rw [h, if_neg hc]

/-- C10 witness: concrete instance at a healthy state and a one-step run. -/
theorem C10_never_back_to_unknown_witness :
    ((handleCheckSuccess httpProbe 1 5 initialTestState).1.status =
        HealthStatus.healthy ∨
     (handleCheckSuccess httpProbe 1 5 initialTestState).1.status =
        initialTestState.status) ∧
    (∀ r ∈ runOutcomes httpProbe
        { initialTestState with status := .healthy } [Outcome.fail 1 "x" 5],
        r.1.status ≠ HealthStatus.unknown) :=
  ⟨C10_never_back_to_unknown.1 httpProbe 1 5 initialTestState,
   C10_never_back_to_unknown.2.2 httpProbe
     { initialTestState with status := .healthy } [Outcome.fail 1 "x" 5]
     (by decide)⟩

/-- C1 (counterexample): with S = 2, F = 3, running [ok, ok, fail] from the
initial unknown state reaches a quiescent point (right after a completed
failure handler) whose status is `healthy` while `consecutive_successes`
(= 0) is below `success_threshold` (= 2): the claimed invariant fails. -/
theorem C1_counterexample :
    (runFinal httpProbe initialTestState
        [.ok 1 5, .ok 2 5, .fail 3 "request failed" 5]).status =
      HealthStatus.healthy ∧
    ¬ ((runFinal httpProbe initialTestState
          [.ok 1 5, .ok 2 5, .fail 3 "request failed" 5]).consecutiveSuccesses
        ≥ (runFinal httpProbe initialTestState
            [.ok 1 5, .ok 2 5, .fail 3 "request failed" 5]).endpoint.successThreshold) := by
  decide

/-- C1 (amended): the threshold bound holds at the quiescent point right
after the handler that changed the status: if a success handler changed the
status then the new status is `healthy` and
`consecutive_successes ≥ success_threshold`; if a failure handler changed
the status then the new status is `unhealthy` and
`consecutive_failures ≥ failure_threshold`. -/
theorem C1_threshold_at_status_change :
    (∀ (probe : Int → String → SSLCertInfo) (now rt : Int) (s : EndpointState),
       (handleCheckSuccess probe now rt s).1.status ≠ s.status →
       (handleCheckSuccess probe now rt s).1.status = HealthStatus.healthy ∧
       (handleCheckSuccess probe now rt s).1.consecutiveSuccesses ≥
         (handleCheckSuccess probe now rt s).1.endpoint.successThreshold) ∧
    (∀ (now : Int) (msg : String) (rt : Int) (s : EndpointState),
       (handleCheckFailure now msg rt s).1.status ≠ s.status →
       (handleCheckFailure now msg rt s).1.status = HealthStatus.unhealthy ∧
       (handleCheckFailure now msg rt s).1.consecutiveFailures ≥
         (handleCheckFailure now msg rt s).1.endpoint.failureThreshold) := by
  constructor
  · intro probe now rt s hne
    have hst := handleCheckSuccess_status probe now rt s
    have hc := (handleCheckSuccess_counters probe now rt s).2
    have he := handleCheckSuccess_endpoint probe now rt s
    by_cases hth : s.consecutiveSuccesses + 1 ≥ s.endpoint.successThreshold
    · rw [hst, if_pos hth]
      exact ⟨rfl, by rw [hc, he]; exact hth⟩
    · exact absurd (by rw [hst, if_neg hth]) hne
  · intro now msg rt s hne
    have hst := handleCheckFailure_status now msg rt s
    have hc := (handleCheckFailure_counters now msg rt s).2
    have he := handleCheckFailure_endpoint now msg rt s
    by_cases hth : s.consecutiveFailures + 1 ≥ s.endpoint.failureThreshold
    · rw [hst, if_pos hth]
      exact ⟨rfl, by rw [hc, he]; exact hth⟩
    · exact absurd (by rw [hst, if_neg hth]) hne

/-- C1 (amended) witness: a success step from a state with one accumulated
success and S = 2 flips unknown to healthy, and the bound holds there. -/
theorem C1_threshold_witness :
    (handleCheckSuccess httpProbe 1 5
        { initialTestState with consecutiveSuccesses := 1 }).1.status =
      HealthStatus.healthy ∧
    (handleCheckSuccess httpProbe 1 5
        { initialTestState with consecutiveSuccesses := 1 }).1.consecutiveSuccesses ≥
      (handleCheckSuccess httpProbe 1 5
          { initialTestState with consecutiveSuccesses := 1 }).1.endpoint.successThreshold :=
  C1_threshold_at_status_change.1 httpProbe 1 5
    { initialTestState with consecutiveSuccesses := 1 } (by decide)

/-- A fixed reference instant (nanoseconds since the Unix epoch). -/
def tNow : Int := 1700000000 * nsPerSecond

/-- A dial oracle that always fails to connect. -/
def failDial : String → DialResult := fun _ => .err "connection refused"

/-- An https endpoint used by the TLS-claim scenarios. -/
def httpsTestEndpoint : Endpoint :=
  { testEndpoint with name := "s", url := "https://api.example.com" }

/-- An endpoint state holding TLS data from an earlier successful probe:
certificate known to expire five days after `tNow`, last TLS check 25 hours
ago (so the next check is due). -/
def priorSSLState : EndpointState :=
  { initialTestState with
      endpoint := httpsTestEndpoint, id := "s", monitorHealth := false,
      sslCertExpiry := tNow + 5 * nsPerDay, daysToExpiry := 5,
      sslExpiringSoon := true, lastSSLCheck := tNow - 25 * nsPerHour }

/-- The TLS probe of `priorSSLState.endpoint.url` at the failing instant:
`CheckSSLCertificate` on the parsed https URL with a failing dial. -/
def failedProbe : Int → String → SSLCertInfo := fun t _ =>
  CheckSSLCertificate (some ⟨"https", "api.example.com", ""⟩) failDial t 30

/-- C2: when the TLS probe of an https URL fails, the result indeed has
`is_https = true`, a non-empty error and zero expiry fields — but the
monitor's TLS-update step (gated only on `is_https`) then OVERWRITES the
previously known `ssl_cert_expiry`, `days_to_expiry` and
`ssl_expiring_soon` with those zero values, instead of leaving them
unchanged as claimed. -/
theorem C2_failed_probe_overwrites :
    (CheckSSLCertificate (some ⟨"https", "api.example.com", ""⟩) failDial
        tNow 30).isHTTPS = true ∧
    (CheckSSLCertificate (some ⟨"https", "api.example.com", ""⟩) failDial
        tNow 30).error = "Failed to connect: connection refused" ∧
    (CheckSSLCertificate (some ⟨"https", "api.example.com", ""⟩) failDial
        tNow 30).expiry = 0 ∧
    (CheckSSLCertificate (some ⟨"https", "api.example.com", ""⟩) failDial
        tNow 30).daysToExpiry = 0 ∧
    (CheckSSLCertificate (some ⟨"https", "api.example.com", ""⟩) failDial
        tNow 30).expiringSoon = false ∧
    priorSSLState.sslCertExpiry ≠ 0 ∧
    (checkSSLOnly failedProbe tNow priorSSLState).sslCertExpiry = 0 ∧
    (checkSSLOnly failedProbe tNow priorSSLState).daysToExpiry = 0 ∧
    (checkSSLOnly failedProbe tNow priorSSLState).sslExpiringSoon = false := by
  decide

theorem tdiv_day_eq_zero_iff (d : Int) :
    Int.tdiv d nsPerDay = 0 ↔ -nsPerDay < d ∧ d < nsPerDay := by
  rcases le_or_lt 0 d with hd | hd
  · rw [Int.tdiv_eq_ediv hd (by simp only [nsPerDay]; omega)]
    simp only [nsPerDay]
    omega
  · have hrw : d = -(-d) := by ring
    rw [hrw, Int.neg_tdiv, neg_eq_zero,
        Int.tdiv_eq_ediv (by omega) (by simp only [nsPerDay]; omega)]
    simp only [nsPerDay]
    omega

/-- C3 (counterexample): Go truncates the day quotient toward zero, not
toward minus infinity.  A certificate that expired 12 hours ago gets
`days_to_expiry = 0` while `floor((notAfter − now)/24h) = −1`; and with
`warning_days = 0` a certificate that expires 12 hours FROM NOW (not yet
expired) is flagged as expiring. -/
theorem C3_counterexample :
    (CheckSSLCertificate (some ⟨"https", "h", ""⟩)
        (fun _ => .ok [⟨tNow - 12 * nsPerHour⟩]) tNow 30).daysToExpiry = 0 ∧
    Int.fdiv ((tNow - 12 * nsPerHour) - tNow) nsPerDay = -1 ∧
    (CheckSSLCertificate (some ⟨"https", "h", ""⟩)
        (fun _ => .ok [⟨tNow + 12 * nsPerHour⟩]) tNow 0).expiringSoon = true ∧
    tNow < tNow + 12 * nsPerHour := by
  decide

/-- C3 (amended): on a successful TLS probe the code computes
`days_to_expiry` as the day quotient truncated toward zero, and flags
`expiring_soon` exactly when `0 ≤ days_to_expiry ≤ warning_days`; with
`warning_days = 0` exactly the certificates whose `notAfter` lies within
24 hours of `now` — in either direction — are flagged. -/
theorem C3_days_to_expiry :
    ∀ (host : String) (notAfter now warningDays : Int), host ≠ "" →
      (CheckSSLCertificate (some ⟨"https", host, ""⟩)
          (fun _ => .ok [⟨notAfter⟩]) now warningDays).daysToExpiry =
        Int.tdiv (notAfter - now) nsPerDay ∧
      ((CheckSSLCertificate (some ⟨"https", host, ""⟩)
          (fun _ => .ok [⟨notAfter⟩]) now warningDays).expiringSoon = true ↔
        0 ≤ Int.tdiv (notAfter - now) nsPerDay ∧
        Int.tdiv (notAfter - now) nsPerDay ≤ warningDays) ∧
      (warningDays = 0 →
        ((CheckSSLCertificate (some ⟨"https", host, ""⟩)
            (fun _ => .ok [⟨notAfter⟩]) now warningDays).expiringSoon = true ↔
          -nsPerDay < notAfter - now ∧ notAfter - now < nsPerDay)) := by
  intro host notAfter now warningDays hhost
  have hred :
      CheckSSLCertificate (some ⟨"https", host, ""⟩)
          (fun _ => .ok [⟨notAfter⟩]) now warningDays =
        { expiry := notAfter,
          daysToExpiry := Int.tdiv (notAfter - now) nsPerDay,
          expiringSoon :=
            decide (Int.tdiv (notAfter - now) nsPerDay ≤ warningDays) &&
            decide (Int.tdiv (notAfter - now) nsPerDay ≥ 0),
          isHTTPS := true, error := "" } := by
    simp [CheckSSLCertificate, hhost]
  rw [hred]
  refine ⟨rfl, ?_, ?_⟩
  · simp only [Bool.and_eq_true, decide_eq_true_eq, ge_iff_le]
    tauto
  · intro hw
    subst hw
    simp only [Bool.and_eq_true, decide_eq_true_eq, ge_iff_le]
    rw [← tdiv_day_eq_zero_iff]
    omega

/-- C3 (amended) witness: concrete instance, certificate 10 days out. -/
theorem C3_days_to_expiry_witness :
    (CheckSSLCertificate (some ⟨"https", "h", ""⟩)
        (fun _ => .ok [⟨10 * nsPerDay⟩]) 0 30).daysToExpiry =
      Int.tdiv (10 * nsPerDay - 0) nsPerDay ∧
    ((CheckSSLCertificate (some ⟨"https", "h", ""⟩)
        (fun _ => .ok [⟨10 * nsPerDay⟩]) 0 30).expiringSoon = true ↔
      0 ≤ Int.tdiv (10 * nsPerDay - 0) nsPerDay ∧
      Int.tdiv (10 * nsPerDay - 0) nsPerDay ≤ 30) ∧
    ((30 : Int) = 0 →
      ((CheckSSLCertificate (some ⟨"https", "h", ""⟩)
          (fun _ => .ok [⟨10 * nsPerDay⟩]) 0 30).expiringSoon = true ↔
        -nsPerDay < 10 * nsPerDay - 0 ∧ 10 * nsPerDay - 0 < nsPerDay)) :=
  C3_days_to_expiry "h" (10 * nsPerDay) 0 30 (by decide)

/-- `HealthCheckRecord` from `app/structs/types.go`. -/
structure HealthCheckRecord where
  endpointID : String
  timestamp : Int
  status : String
  responseTime : Int
  statusCode : Int
  error : String
deriving DecidableEq, Repr

/-- The endpoints BoltDB bucket, embedded as an association list keyed by
endpoint id. -/
abbrev EndpointsBucket := List (String × StoredEndpoint)

/-- The monitor's in-memory state table `m.states`. -/
abbrev StateTable := List (String × EndpointState)

/-- Keyed lookup in an association list (`bolt.Bucket.Get`, `m.states[id]`). -/
def assocGet {α : Type} : List (String × α) → String → Option α
  | [], _ => none
  | (k, v) :: rest, id => if k = id then some v else assocGet rest id

/-- Keyed upsert in an association list (`bolt.Bucket.Put`). -/
def assocPut {α : Type} : List (String × α) → String → α → List (String × α)
  | [], k, v => [(k, v)]
  | (k', v') :: rest, k, v =>
      if k' = k then (k', v) :: rest else (k', v') :: assocPut rest k v

/-- Keyed removal from an association list (`bolt.Bucket.Delete`,
`delete(m.states, id)`); a no-op when the key is absent. -/
def assocDelete {α : Type} : List (String × α) → String → List (String × α)
  | [], _ => []
  | (k, v) :: rest, id =>
      if k = id then assocDelete rest id else (k, v) :: assocDelete rest id

/-- The default-filling prologue of `Database.SaveEndpoint`
(`app/models/database.go`): stamp timestamps, fill zero fields with the
documented defaults. -/
def applyEndpointDefaults (now : Int) (e : StoredEndpoint) : StoredEndpoint :=
  let e : StoredEndpoint :=
    if e.createdAt = 0 then { e with createdAt := now } else e
  let e : StoredEndpoint := { e with updatedAt := now }
  let e : StoredEndpoint :=
    if e.method = "" then { e with method := "GET" } else e
  let e : StoredEndpoint :=
    if e.timeout = 0 then { e with timeout := 10 * nsPerSecond } else e
  let e : StoredEndpoint :=
    if e.expectedStatus = 0 then { e with expectedStatus := 200 } else e
  let e : StoredEndpoint :=
    if e.failureThreshold = 0 then { e with failureThreshold := 3 } else e
  let e : StoredEndpoint :=
    if e.successThreshold = 0 then { e with successThreshold := 2 } else e
  if e.checkInterval = 0 then { e with checkInterval := 30 * nsPerSecond } else e

/-- `Database.SaveEndpoint`: fill defaults then `Put` (marshalling cannot
fail in the model). -/
def SaveEndpoint (now : Int) (e : StoredEndpoint) (store : EndpointsBucket) :
    Except String EndpointsBucket :=
  .ok (assocPut store e.id (applyEndpointDefaults now e))

/-- `Database.GetEndpoint`: lookup; a missing id is the
"endpoint not found" error. -/
def GetEndpoint (store : EndpointsBucket) (id : String) :
    Except String StoredEndpoint :=
  match assocGet store id with
  | none => .error ("endpoint not found: " ++ id)
  | some e => .ok e

/-- `Database.DeleteEndpoint`: `bolt.Bucket.Delete` never errors, also on
an absent key. -/
def DeleteEndpoint (store : EndpointsBucket) (id : String) :
    Except String EndpointsBucket :=
  .ok (assocDelete store id)

/-- `Database.EnableEndpoint`. -/
def EnableEndpoint (now : Int) (store : EndpointsBucket) (id : String) :
    Except String EndpointsBucket :=
  match GetEndpoint store id with
  | .error e => .error e
  | .ok ep => SaveEndpoint now { ep with enabled := true } store

/-- `Database.DisableEndpoint`. -/
def DisableEndpoint (now : Int) (store : EndpointsBucket) (id : String) :
    Except String EndpointsBucket :=
  match GetEndpoint store id with
  | .error e => .error e
  | .ok ep => SaveEndpoint now { ep with enabled := false } store

/-- `Database.SuppressAlerts`. -/
def SuppressAlerts (now : Int) (store : EndpointsBucket) (id : String) :
    Except String EndpointsBucket :=
  match GetEndpoint store id with
  | .error e => .error e
  | .ok ep => SaveEndpoint now { ep with alertsSuppressed := true } store

/-- `Database.UnsuppressAlerts`. -/
def UnsuppressAlerts (now : Int) (store : EndpointsBucket) (id : String) :
    Except String EndpointsBucket :=
  match GetEndpoint store id with
  | .error e => .error e
  | .ok ep => SaveEndpoint now { ep with alertsSuppressed := false } store

/-- `Monitor.RemoveEndpoint`: `db.DeleteEndpoint` then drop the state
entry; any store error is returned before the state change. -/
def RemoveEndpoint (store : EndpointsBucket) (states : StateTable)
    (id : String) : Except String (EndpointsBucket × StateTable) :=
  match DeleteEndpoint store id with
  | .error e => .error e
  | .ok store' => .ok (store', assocDelete states id)

/-- `DataRetentionDays` from `app/models/database.go`. -/
def DataRetentionDays : Int := 3

/-- `Database.CleanupOldData`: delete every history record whose timestamp
is before `now − 3 days` (`AddDate(0, 0, -3)`; days are 24-hour here),
report the remaining records and the deleted count. -/
def CleanupOldData (now : Int) (history : List HealthCheckRecord) :
    List HealthCheckRecord × Nat :=
  let cutoff := now - DataRetentionDays * nsPerDay
  (history.filter (fun r => decide (¬ r.timestamp < cutoff)),
   (history.filter (fun r => decide (r.timestamp < cutoff))).length)

/-- The per-state body of `Monitor.UpdateEndpointSettings`: replace
timeout, thresholds and check interval. -/
def applyEndpointSettings (stored : StoredEndpoint) (s : EndpointState) :
    EndpointState :=
  { s with
      endpoint := { s.endpoint with
                      timeout := stored.timeout,
                      failureThreshold := stored.failureThreshold,
                      successThreshold := stored.successThreshold },
      checkInterval := stored.checkInterval }

/-- `Monitor.UpdateEndpointSettings`: update the entry at `id` when
present, leave every other entry alone. -/
def UpdateEndpointSettings (id : String) (stored : StoredEndpoint)
    (states : StateTable) : StateTable :=
  states.map (fun p => if p.1 = id then (p.1, applyEndpointSettings stored p.2) else p)

/-- C5 (counterexample): removing an id that is not in the store returns
success, not a "not found" error — `bolt.Bucket.Delete` is a no-op on a
missing key and `RemoveEndpoint` surfaces no error. -/
theorem C5_counterexample :
    RemoveEndpoint [] [] "missing" = .ok ([], []) := rfl

/-- C5 (amended): enable, disable, suppress and unsuppress return the
"endpoint not found" error on an unknown id (they read the record first);
remove on an unknown id succeeds, deleting nothing. -/
theorem C5_unknown_id :
    ∀ (store : EndpointsBucket) (states : StateTable) (id : String) (now : Int),
      assocGet store id = none →
      EnableEndpoint now store id = .error ("endpoint not found: " ++ id) ∧
      DisableEndpoint now store id = .error ("endpoint not found: " ++ id) ∧
      SuppressAlerts now store id = .error ("endpoint not found: " ++ id) ∧
      UnsuppressAlerts now store id = .error ("endpoint not found: " ++ id) ∧
      RemoveEndpoint store states id =
        .ok (assocDelete store id, assocDelete states id) := by
  intro store states id now h
  have hg : GetEndpoint store id = .error ("endpoint not found: " ++ id) := by
    simp [GetEndpoint, h]
  exact ⟨by simp [EnableEndpoint, hg], by simp [DisableEndpoint, hg],
         by simp [SuppressAlerts, hg], by simp [UnsuppressAlerts, hg], rfl⟩

/-- C5 (amended) witness: the empty store with id "x". -/
theorem C5_unknown_id_witness :
    EnableEndpoint 0 [] "x" = .error ("endpoint not found: " ++ "x") ∧
    DisableEndpoint 0 [] "x" = .error ("endpoint not found: " ++ "x") ∧
    SuppressAlerts 0 [] "x" = .error ("endpoint not found: " ++ "x") ∧
    UnsuppressAlerts 0 [] "x" = .error ("endpoint not found: " ++ "x") ∧
    RemoveEndpoint [] [] "x" = .ok (assocDelete [] "x", assocDelete [] "x") :=
  C5_unknown_id [] [] "x" 0 rfl

/-- A concrete history record for the retention scenario. -/
def mkRecord (t : Int) (st : String) (err : String) : HealthCheckRecord :=
  { endpointID := "e", timestamp := t, status := st,
    responseTime := 5 * 1000000, statusCode := 0, error := err }

/-- C7: after `cleanup(now)` no record older than `now − 3 days` remains,
and on records at `{now−4d, now−2d, now−1h}` cleanup leaves exactly
`{now−2d, now−1h}` (one record deleted). -/
theorem C7_cleanup_retention :
    (∀ (now : Int) (h : List HealthCheckRecord),
       ∀ r ∈ (CleanupOldData now h).1, ¬ r.timestamp < now - 3 * nsPerDay) ∧
    CleanupOldData tNow
        [ mkRecord (tNow - 4 * nsPerDay) "unhealthy" "request failed",
          mkRecord (tNow - 2 * nsPerDay) "healthy" "",
          mkRecord (tNow - nsPerHour) "healthy" "" ] =
      ([ mkRecord (tNow - 2 * nsPerDay) "healthy" "",
         mkRecord (tNow - nsPerHour) "healthy" "" ], 1) := by
  constructor
  · intro now h r hr
    have hmem := List.mem_filter.mp hr
    have := hmem.2
    simp only [DataRetentionDays, decide_eq_true_eq] at this
    intro hlt
    exact this (by omega)
  · decide

/-- C7 witness: the record at `now − 1h` is in the cleaned history and is
not older than the cutoff. -/
theorem C7_cleanup_retention_witness :
    ¬ (mkRecord (tNow - nsPerHour) "healthy" "").timestamp <
        tNow - 3 * nsPerDay :=
  C7_cleanup_retention.1 tNow [mkRecord (tNow - nsPerHour) "healthy" ""]
    (mkRecord (tNow - nsPerHour) "healthy" "") (by decide)

/-- A concrete stored record carrying replacement settings. -/
def testStored : StoredEndpoint :=
  { id := "e", name := "e", url := "http://e.example.com", method := "GET",
    timeout := 5 * nsPerSecond, checkInterval := 60 * nsPerSecond,
    expectedStatus := 200, headers := [], failureThreshold := 4,
    successThreshold := 3, enabled := true, alertsSuppressed := false,
    monitorHealth := true, createdAt := 0, updatedAt := 0 }

theorem assocGet_updateEndpointSettings (id : String) (stored : StoredEndpoint)
    (states : StateTable) (s : EndpointState)
    (h : assocGet states id = some s) :
    assocGet (UpdateEndpointSettings id stored states) id =
      some (applyEndpointSettings stored s) := by
  induction states with
  | nil => simp [assocGet] at h
  | cons p rest ih =>
      by_cases hp : p.1 = id
      · simp only [UpdateEndpointSettings, List.map_cons, if_pos hp]
        simp only [assocGet, if_pos hp] at h ⊢
        rw [← Option.some_inj.mp h]
      · simp only [UpdateEndpointSettings, List.map_cons, if_neg hp]
        simp only [assocGet, if_neg hp] at h ⊢
        exact ih h

theorem assocGet_updateEndpointSettings_other (id idOther : String)
    (stored : StoredEndpoint) (states : StateTable) (hne : idOther ≠ id) :
    assocGet (UpdateEndpointSettings id stored states) idOther =
      assocGet states idOther := by
  induction states with
  | nil => simp [UpdateEndpointSettings, assocGet]
  | cons p rest ih =>
      by_cases hp : p.1 = id
      · have hp2 : p.1 ≠ idOther := by rw [hp]; exact fun hx => hne hx.symm
        simp only [UpdateEndpointSettings, List.map_cons, if_pos hp]
        simp only [assocGet, if_neg hp2]
        exact ih
      · simp only [UpdateEndpointSettings, List.map_cons, if_neg hp]
        by_cases hq : p.1 = idOther
        · simp only [assocGet, if_pos hq]
        · simp only [assocGet, if_neg hq]
          exact ih

/-- C9: `update_endpoint_settings` replaces exactly timeout,
check_interval and the two thresholds of the state stored under the id;
status, both counters and every other field are preserved, and every
other id's entry is untouched. -/
theorem C9_update_settings_frame :
    (∀ (id : String) (stored : StoredEndpoint) (states : StateTable)
       (s : EndpointState), assocGet states id = some s →
       assocGet (UpdateEndpointSettings id stored states) id =
         some (applyEndpointSettings stored s)) ∧
    (∀ (id idOther : String) (stored : StoredEndpoint) (states : StateTable),
       idOther ≠ id →
       assocGet (UpdateEndpointSettings id stored states) idOther =
         assocGet states idOther) ∧
    (∀ (stored : StoredEndpoint) (s : EndpointState),
       (applyEndpointSettings stored s).endpoint.timeout = stored.timeout ∧
       (applyEndpointSettings stored s).endpoint.failureThreshold =
         stored.failureThreshold ∧
       (applyEndpointSettings stored s).endpoint.successThreshold =
         stored.successThreshold ∧
       (applyEndpointSettings stored s).checkInterval = stored.checkInterval ∧
       (applyEndpointSettings stored s).status = s.status ∧
       (applyEndpointSettings stored s).consecutiveFailures =
         s.consecutiveFailures ∧
       (applyEndpointSettings stored s).consecutiveSuccesses =
         s.consecutiveSuccesses ∧
       (applyEndpointSettings stored s).lastCheck = s.lastCheck ∧
       (applyEndpointSettings stored s).lastStatusChange = s.lastStatusChange ∧
       (applyEndpointSettings stored s).responseTime = s.responseTime ∧
       (applyEndpointSettings stored s).lastError = s.lastError ∧
       (applyEndpointSettings stored s).enabled = s.enabled ∧
       (applyEndpointSettings stored s).alertsSuppressed =
         s.alertsSuppressed ∧
       (applyEndpointSettings stored s).monitorHealth = s.monitorHealth ∧
       (applyEndpointSettings stored s).id = s.id ∧
       (applyEndpointSettings stored s).nextCheck = s.nextCheck ∧
       (applyEndpointSettings stored s).sslCertExpiry = s.sslCertExpiry ∧
       (applyEndpointSettings stored s).sslExpiringSoon = s.sslExpiringSoon ∧
       (applyEndpointSettings stored s).daysToExpiry = s.daysToExpiry ∧
       (applyEndpointSettings stored s).lastSSLCheck = s.lastSSLCheck ∧
       (applyEndpointSettings stored s).endpoint.name = s.endpoint.name ∧
       (applyEndpointSettings stored s).endpoint.url = s.endpoint.url ∧
       (applyEndpointSettings stored s).endpoint.method = s.endpoint.method ∧
       (applyEndpointSettings stored s).endpoint.expectedStatus =
         s.endpoint.expectedStatus ∧
       (applyEndpointSettings stored s).endpoint.headers =
         s.endpoint.headers) := by
  refine ⟨assocGet_updateEndpointSettings, assocGet_updateEndpointSettings_other,
          fun stored s => ?_⟩
  repeat' constructor

/-- C9 witness: a one-entry state table under id "e". -/
theorem C9_update_settings_frame_witness :
    assocGet (UpdateEndpointSettings "e" testStored [("e", initialTestState)])
        "e" = some (applyEndpointSettings testStored initialTestState) ∧
    assocGet (UpdateEndpointSettings "e" testStored [("e", initialTestState)])
        "other" = assocGet [("e", initialTestState)] "other" ∧
    (applyEndpointSettings testStored initialTestState).status =
      initialTestState.status :=
  ⟨C9_update_settings_frame.1 "e" testStored [("e", initialTestState)]
      initialTestState rfl,
   C9_update_settings_frame.2.1 "e" "other" testStored
      [("e", initialTestState)] (by decide),
   (C9_update_settings_frame.2.2 testStored initialTestState).2.2.2.2.1⟩

/-- The trailing-dash trim loop of `GenerateIDWithURL`
(`for len(result) > 0 && result[len(result)-1] == '-' { … }`). -/
def trimTrailingDashes (l : List Char) : List Char :=
  (l.reverse.dropWhile (fun c => c = '-')).reverse

/-- `GenerateIDWithURL` from `app/utils/helpers.go`: classify each rune of
`name + "-" + url` (keep ASCII letters/digits, map the six separator runes
to `-`, drop the rest), then collapse dash runs with a `prevDash` flag,
then trim trailing dashes. -/
def GenerateIDWithURL (name url : String) : String :=
  let combined := name ++ "-" ++ url
  let id : List Char := combined.data.foldl (fun acc c =>
    if ('a' ≤ c ∧ c ≤ 'z') ∨ ('A' ≤ c ∧ c ≤ 'Z') ∨ ('0' ≤ c ∧ c ≤ '9') then
      acc ++ [c]
    else if c = ' ' ∨ c = '-' ∨ c = '_' ∨ c = '/' ∨ c = ':' ∨ c = '.' then
      acc ++ ['-']
    else acc) []
  let result : List Char × Bool := id.foldl (fun p c =>
    if c = '-' then (if p.2 then p.1 else p.1 ++ [c], true)
    else (p.1 ++ [c], false)) ([], false)
  ⟨trimTrailingDashes result.1⟩

/-- Per-character classification in the spec's description of `sanitize`:
keep ASCII letters and digits, map any of space, `-`, `_`, `/`, `:`, `.`
to `-`, drop every other character. -/
def sanitizeClass (c : Char) : Option Char :=
  if ('a' ≤ c ∧ c ≤ 'z') ∨ ('A' ≤ c ∧ c ≤ 'Z') ∨ ('0' ≤ c ∧ c ≤ '9') then
    some c
  else if c = ' ' ∨ c = '-' ∨ c = '_' ∨ c = '/' ∨ c = ':' ∨ c = '.' then
    some '-'
  else none

/-- Collapse every run of `-` to a single `-` (the spec's description,
stated pairwise). -/
def collapseDashes : List Char → List Char
  | [] => []
  | [c] => [c]
  | a :: b :: rest =>
      if a = '-' ∧ b = '-' then collapseDashes (b :: rest)
      else a :: collapseDashes (b :: rest)

/-- The spec's `sanitize`: classify, collapse dash runs, strip trailing
dashes. -/
def sanitize (s : String) : String :=
  ⟨trimTrailingDashes (collapseDashes (s.data.filterMap sanitizeClass))⟩

/-- Dash-run collapsing with an explicit previous-was-dash flag, used to
relate the source's fold to `collapseDashes`. -/
def collapseAux : Bool → List Char → List Char
  | _, [] => []
  | prev, c :: rest =>
      if c = '-' then
        (if prev then collapseAux true rest else '-' :: collapseAux true rest)
      else c :: collapseAux false rest

theorem foldl_classify (l acc : List Char) :
    l.foldl (fun acc c =>
      if ('a' ≤ c ∧ c ≤ 'z') ∨ ('A' ≤ c ∧ c ≤ 'Z') ∨ ('0' ≤ c ∧ c ≤ '9') then
        acc ++ [c]
      else if c = ' ' ∨ c = '-' ∨ c = '_' ∨ c = '/' ∨ c = ':' ∨ c = '.' then
        acc ++ ['-']
      else acc) acc = acc ++ l.filterMap sanitizeClass := by
  induction l generalizing acc with
  | nil => simp
  | cons c rest ih =>
      simp only [List.foldl_cons, List.filterMap_cons, sanitizeClass]
      split_ifs with h1 h2
      · rw [ih]; simp
      · rw [ih]; simp
      · rw [ih]

theorem foldl_collapse (l acc : List Char) (prev : Bool) :
    (l.foldl (fun p c =>
        if c = '-' then (if p.2 then p.1 else p.1 ++ [c], true)
        else (p.1 ++ [c], false)) (acc, prev)).1 =
      acc ++ collapseAux prev l := by
  induction l generalizing acc prev with
  | nil => simp [collapseAux]
  | cons c rest ih =>
      simp only [List.foldl_cons, collapseAux]
      split_ifs with h1 h2
      · rw [ih]
      · rw [ih]; simp [h1]
      · rw [ih]; simp

theorem collapseDashes_cons_ne (c : Char) (hc : c ≠ '-') (r : List Char) :
    collapseDashes (c :: r) = c :: collapseDashes r := by
  cases r with
  | nil => rfl
  | cons b rest =>
      rw [collapseDashes, if_neg (fun h => hc h.1)]

theorem collapseDashes_dash (r : List Char) :
    collapseDashes ('-' :: r) =
      '-' :: collapseDashes (r.dropWhile (fun c => c = '-')) := by
  induction r with
  | nil => rfl
  | cons b rest ih =>
      by_cases hb : b = '-'
      · subst hb
        rw [collapseDashes, if_pos ⟨rfl, rfl⟩, ih]
        simp [List.dropWhile]
      · rw [collapseDashes, if_neg (fun h => hb h.2)]
        have : List.dropWhile (fun c => decide (c = '-')) (b :: rest) =
            b :: rest := by
          simp [List.dropWhile, hb]
        rw [this]

theorem collapseAux_eq (l : List Char) :
    collapseAux false l = collapseDashes l ∧
    collapseAux true l =
      collapseDashes (l.dropWhile (fun c => c = '-')) := by
  induction l with
  | nil => exact ⟨rfl, rfl⟩
  | cons c rest ih =>
      by_cases hc : c = '-'
      · subst hc
        constructor
        · have h1 : collapseAux false ('-' :: rest) =
              '-' :: collapseAux true rest := by simp [collapseAux]
          rw [h1, ih.2, ← collapseDashes_dash]
        · have h2 : collapseAux true ('-' :: rest) = collapseAux true rest := by
            simp [collapseAux]
          have h3 : List.dropWhile (fun c => decide (c = '-'))
              ('-' :: rest) = List.dropWhile (fun c => decide (c = '-')) rest := by
            simp [List.dropWhile]
          rw [h2, h3]
          exact ih.2
      · constructor
        · have h1 : collapseAux false (c :: rest) =
              c :: collapseAux false rest := by simp [collapseAux, hc]
          rw [h1, ih.1, collapseDashes_cons_ne c hc]
        · have h1 : collapseAux true (c :: rest) =
              c :: collapseAux false rest := by simp [collapseAux, hc]
          have h3 : List.dropWhile (fun x => decide (x = '-')) (c :: rest) =
              c :: rest := by
            simp [List.dropWhile, hc]
          rw [h1, ih.1, h3, collapseDashes_cons_ne c hc]

/-- C8: the generated id equals the spec's `sanitize` applied to
`name ++ "-" ++ url`, for every name and url; and the concrete example
`GenerateIDWithURL "My Api" "https://api.example.com/v1/"` yields
`"My-Api-https-api-example-com-v1"`. -/
theorem C8_generate_id :
    (∀ name url : String,
       GenerateIDWithURL name url = sanitize (name ++ "-" ++ url)) ∧
    GenerateIDWithURL "My Api" "https://api.example.com/v1/" =
      "My-Api-https-api-example-com-v1" := by
  constructor
  · intro name url
    show (⟨trimTrailingDashes _⟩ : String) = ⟨trimTrailingDashes _⟩
    rw [foldl_collapse, foldl_classify]
    simp only [List.nil_append]
    rw [(collapseAux_eq _).1]
  · decide

end SiteWatch
